import Mathlib

set_option maxRecDepth 100000

/-!
Verification of the ORCA DFT calculator core (src/app.py) against its
natural-language specification.

The development shallowly embeds the three components of the program:

* `generate_orca_input` — the input builder (app.py lines 24–32), a pure
  string construction.
* `run_orca_calculation` — the process runner (app.py lines 34–72).  The
  filesystem and the child process are modelled by an explicit `OrcaWorld`
  record describing what the environment does during one run; an uncaught
  Python exception is modelled by `Except.error`.
* `parse_orca_output` — the output parser (app.py lines 74–117).  The two
  Python regular expressions of the source are embedded as specialised,
  structurally recursive matching functions over `List Char` whose
  behaviour (including greedy/lazy backtracking and `re.findall`
  non-overlapping scanning) follows CPython `re` semantics for exactly
  these two patterns.

All definitions are executable, so concrete runs of the parser are settled
by kernel evaluation.
-/

/-! ## Python character classes and small string utilities -/

/-- Python `\s` on ASCII text: space, tab, newline, carriage return,
form feed, vertical tab.  (The source only ever meets ASCII report text.) -/
def isPySpace (c : Char) : Bool :=
  c == ' ' || c == '\t' || c == '\n' || c == '\x0d' || c == '\x0c' || c == '\x0b'

/-- Python `\d` on ASCII text: the decimal digits. -/
def isDigitA (c : Char) : Bool :=
  '0' ≤ c && c ≤ '9'

/-- `startsWithCl p s` is true when the pattern list `p` is an initial
segment of `s` (the character-list analogue of Python `str.startswith`). -/
def startsWithCl : List Char → List Char → Bool
  | [], _ => true
  | _ :: _, [] => false
  | p :: ps, c :: cs => p == c && startsWithCl ps cs

/-- `hasSub hay pat` is true when `pat` occurs contiguously inside `hay`
(the character-list analogue of Python `pat in hay`). -/
def hasSub : List Char → List Char → Bool
  | [], pat => startsWithCl pat []
  | c :: t, pat => startsWithCl pat (c :: t) || hasSub t pat

/-- Remove the pattern `p` from the front of `s`, returning the remainder,
or `none` when `p` is not an initial segment of `s`. -/
def stripLeadCl : List Char → List Char → Option (List Char)
  | [], s => some s
  | _ :: _, [] => none
  | p :: ps, c :: cs => if p == c then stripLeadCl ps cs else none

/-- Python `str.strip()`: drop whitespace from both ends. -/
def pyStrip (s : List Char) : List Char :=
  ((s.dropWhile isPySpace).reverse.dropWhile isPySpace).reverse

/-- Python `str.split('\n')`: split at every newline, keeping empty
pieces; the result is always non-empty. -/
def splitLines : List Char → List (List Char)
  | [] => [[]]
  | c :: cs =>
    if c = '\n' then [] :: splitLines cs
    else
      match splitLines cs with
      | [] => [[c]]
      | l :: ls => (c :: l) :: ls

/-- Worker for `pySplitWs`; `acc` holds the current token reversed. -/
def pySplitWsAux : List Char → List Char → List (List Char)
  | acc, [] => if acc.isEmpty then [] else [acc.reverse]
  | acc, c :: cs =>
    if isPySpace c then
      if acc.isEmpty then pySplitWsAux [] cs
      else acc.reverse :: pySplitWsAux [] cs
    else pySplitWsAux (c :: acc) cs

/-- Python `str.split()` with no argument: split on runs of whitespace,
discarding empty tokens. -/
def pySplitWs (s : List Char) : List (List Char) :=
  pySplitWsAux [] s

/-- Join a list of lines with newline characters (Python `'\n'.join`). -/
def joinNl : List (List Char) → List Char
  | [] => []
  | [a] => a
  | a :: rest => a ++ '\n' :: joinNl rest

/-! ## The Python `float` literal grammar

`parse_orca_output` guards coordinate fields with `float(...)`; Python's
`float` accepts an optionally signed decimal literal (underscores allowed
between digits, trailing or leading dot allowed, optional exponent) and
the case-insensitive words `inf`, `infinity` and `nan`, with surrounding
whitespace ignored. -/

/-- Consume `(digit | '_' digit)*` greedily, returning what is left:
the continuation of a Python digit-part after its first digit. -/
def chompDigitsU : List Char → List Char
  | [] => []
  | c :: cs =>
    if isDigitA c then chompDigitsU cs
    else if c == '_' then
      match cs with
      | d :: cs2 => if isDigitA d then chompDigitsU cs2 else c :: cs
      | [] => c :: cs
    else c :: cs

/-- After a complete mantissa, accept an optional exponent
(`[eE][-+]?digitpart`) and require the end of the token. -/
def floatExpEnd : List Char → Bool
  | [] => true
  | c :: v =>
    if c == 'e' || c == 'E' then
      match v with
      | s :: v2 =>
        if s == '+' || s == '-' then
          match v2 with
          | d :: v3 => if isDigitA d then (chompDigitsU v3).isEmpty else false
          | [] => false
        else if isDigitA s then (chompDigitsU v2).isEmpty else false
      | [] => false
    else false

/-- An unsigned Python float literal body: `digitpart [. [digitpart]]` or
`. digitpart`, followed by an optional exponent, consuming the whole
token. -/
def floatNum : List Char → Bool
  | [] => false
  | c :: v =>
    if isDigitA c then
      match chompDigitsU v with
      | [] => true
      | d :: r2 =>
        if d == '.' then
          match r2 with
          | e :: r3 =>
            if isDigitA e then floatExpEnd (chompDigitsU r3) else floatExpEnd r2
          | [] => true
        else floatExpEnd (d :: r2)
    else if c == '.' then
      match v with
      | e :: v2 => if isDigitA e then floatExpEnd (chompDigitsU v2) else false
      | [] => false
    else false

/-- Unsigned body of a float token: either one of the special words
`inf` / `infinity` / `nan` (case-insensitive) or a numeric literal. -/
def canFloatBody (u : List Char) : Bool :=
  let lw := u.map Char.toLower
  if lw = ("inf".data) || lw = ("infinity".data) || lw = ("nan".data) then true
  else floatNum u

/-- Whether Python `float(tok)` succeeds on the token `tok`. -/
def canPyFloat (tok : List Char) : Bool :=
  match pyStrip tok with
  | [] => false
  | c :: v => if c == '+' || c == '-' then canFloatBody v else canFloatBody (c :: v)


/-! ## Energy extraction (app.py lines 80–87)

The source runs
`re.search(r'FINAL SINGLE POINT ENERGY\s+([-+]?\d*\.?\d+(?:[eE][-+]?\d+)?)', content)`
and returns group 1, or the sentinel `"Not found"` when there is no match.
The functions below realise exactly this pattern: `matchNumber` produces
the group text the backtracking engine yields for
`[-+]?\d*\.?\d+(?:[eE][-+]?\d+)?` at a given position, and `searchEnergy`
scans left to right for the first position where the whole pattern
matches, as `re.search` does. -/

/-- The fixed label of the energy line in the ORCA report. -/
def energyLabel : String := "FINAL SINGLE POINT ENERGY"

/-- The optional exponent part `(?:[eE][-+]?\d+)?`: returns the consumed
characters (empty when the group does not participate).  Mirrors the
backtracking order: a sign without following digits makes the whole
optional group match empty. -/
def matchExp : List Char → List Char
  | [] => []
  | c :: r2 =>
    if c == 'e' || c == 'E' then
      match r2 with
      | s :: r3 =>
        if s == '+' || s == '-' then
          let ds := r3.takeWhile isDigitA
          if ds.isEmpty then [] else c :: s :: ds
        else
          let ds := r2.takeWhile isDigitA
          if ds.isEmpty then [] else c :: ds
      | [] => []
    else []

/-- The mantissa `\d*\.?\d+` with greedy-first backtracking: returns the
matched text and the remaining input, or `none` when the pattern cannot
match at this position.  When all digits are taken by `\d*` and no
fractional digits follow, the engine backtracks so that `\d+` receives
the final digit; the overall matched text is unchanged, which is what the
fallback branches reproduce. -/
def matchMant (u : List Char) : Option (List Char × List Char) :=
  let ds := u.takeWhile isDigitA
  let r := u.dropWhile isDigitA
  match r with
  | c :: r2 =>
    if c == '.' then
      let es := r2.takeWhile isDigitA
      if es.isEmpty then
        if ds.isEmpty then none else some (ds, r)
      else some (ds ++ c :: es, r2.dropWhile isDigitA)
    else if ds.isEmpty then none else some (ds, r)
  | [] => if ds.isEmpty then none else some (ds, [])

/-- Mantissa followed by optional exponent. -/
def numberBody (u : List Char) : Option (List Char) :=
  match matchMant u with
  | some (m, rest) => some (m ++ matchExp rest)
  | none => none

/-- The full numeric group `[-+]?\d*\.?\d+(?:[eE][-+]?\d+)?` at a fixed
position.  A leading sign whose continuation fails cannot be rescued by
dropping the sign (no mantissa starts with `+` or `-`), hence the plain
`Option.map`-like shape. -/
def matchNumber : List Char → Option (List Char)
  | [] => none
  | c :: v =>
    if c == '-' || c == '+' then
      match numberBody v with
      | some m => some (c :: m)
      | none => none
    else numberBody (c :: v)

/-- One attempt of the energy pattern at a fixed position: the literal
label, then `\s+` (at least one whitespace character; since no number
starts with whitespace, the greedy run is equivalent to skipping the
maximal whitespace run), then the numeric group. -/
def matchEnergyAt (s : List Char) : Option (List Char) :=
  match stripLeadCl energyLabel.data s with
  | none => none
  | some t =>
    match t with
    | c :: _ => if isPySpace c then matchNumber (t.dropWhile isPySpace) else none
    | [] => none

/-- `re.search` for the energy pattern: the match at the leftmost
position where an attempt succeeds. -/
def searchEnergy : List Char → Option (List Char)
  | [] => none
  | c :: cs =>
    match matchEnergyAt (c :: cs) with
    | some g => some g
    | none => searchEnergy cs

/-- Energy component of the parser (app.py lines 80–87). -/
def parseEnergy (content : String) : String :=
  match searchEnergy content.data with
  | some g => String.mk g
  | none => "Not found"


/-! ## Geometry extraction (app.py lines 89–113)

The source runs
`re.findall(r'CARTESIAN COORDINATES \(ANGSTROEM\)\s*-+\s*\n((?:.*\n)*?)(?=-{3,}|\n\s*\n)', content)`,
takes the last match, and keeps the plausible atom lines of that block.

One attempt of the pattern at a fixed position proceeds as follows
(backtracking analysis of the concrete pattern; character classes of
adjacent pieces are disjoint, so only the trailing `\s*\n` ever
backtracks productively):

* the literal header `CARTESIAN COORDINATES (ANGSTROEM)`;
* `\s*` takes the maximal whitespace run;
* `-+` needs at least one dash and takes the maximal dash run;
* `\s*\n` consumes whitespace up to and including a newline inside the
  following maximal whitespace run — greedily the last newline of that
  run, retrying earlier newlines when the rest of the pattern fails;
* the lazy group `((?:.*\n)*?)` consumes whole lines, stopping at the
  first line start where the lookahead `(?=-{3,}|\n\s*\n)` holds, and
  failing when the input ends first.

`re.findall` scans left to right and resumes after each match (at the
end of the group, since the lookahead consumes nothing). -/

/-- The fixed section header of a Cartesian-coordinates block. -/
def geoHeader : String := "CARTESIAN COORDINATES (ANGSTROEM)"

/-- The lookahead `(?=-{3,}|\n\s*\n)` at a line start: three dashes
ahead, or a newline followed by whitespace containing another newline. -/
def geomLookahead (u : List Char) : Bool :=
  (match u with
   | a :: b :: c :: _ => a == '-' && b == '-' && c == '-'
   | _ => false)
  ||
  (match u with
   | a :: rest => a == '\n' && ((rest.takeWhile isPySpace).contains '\n')
   | [] => false)

/-- The lazy line group with its lookahead: starting at `u` (with
`atStart` true exactly at a line start), return the consumed group text
and the remaining input at the first line start where the lookahead
holds, or `none` when the input is exhausted first. -/
def glScan : List Char → Bool → Option (List Char × List Char)
  | u, atStart =>
    if atStart && geomLookahead u then some ([], u)
    else
      match u with
      | [] => none
      | c :: v =>
        match glScan v (c == '\n') with
        | some (g, r) => some (c :: g, r)
        | none => none

/-- Suffixes of the input just after each newline inside its leading
whitespace run, in textual order: the candidate resume points of the
backtracking `\s*\n`. -/
def nlCandidates : List Char → List (List Char)
  | [] => []
  | c :: v =>
    if isPySpace c then
      if c = '\n' then v :: nlCandidates v else nlCandidates v
    else []

/-- Try `glScan` from each candidate in order, returning the first
success. -/
def firstScan : List (List Char) → Option (List Char × List Char)
  | [] => none
  | u :: rest =>
    match glScan u true with
    | some gr => some gr
    | none => firstScan rest

/-- One attempt of the whole geometry pattern at a fixed position:
returns the group text and the input remaining after the match. -/
def attemptGeom (s : List Char) : Option (List Char × List Char) :=
  match stripLeadCl geoHeader.data s with
  | none => none
  | some t =>
    let t1 := t.dropWhile isPySpace
    match t1 with
    | c :: _ =>
      if c == '-' then
        firstScan (nlCandidates (t1.dropWhile (fun d => d == '-'))).reverse
      else none
    | [] => none

/-- `re.findall` scanning loop; the fuel argument is an upper bound on
the number of scanning steps (every step discards at least one input
character, so `content.length` steps always suffice). -/
def findallGeomAux : Nat → List Char → List (List Char)
  | 0, _ => []
  | _ + 1, [] => []
  | n + 1, c :: cs =>
    match attemptGeom (c :: cs) with
    | some (g, rest) => g :: findallGeomAux n rest
    | none => findallGeomAux n cs

/-- All matches of the geometry pattern (the `geometry_matches` list of
app.py line 91). -/
def geometryMatches (content : List Char) : List (List Char) :=
  findallGeomAux content.length content

/-! ### Filtering and reformatting the selected block
(app.py lines 96–111) -/

/-- Python `f"{s:2s}"`: left-justify in two characters. -/
def padTo2Left (s : List Char) : List Char :=
  if s.length < 2 then s ++ List.replicate (2 - s.length) ' ' else s

/-- Python `f"{s:>12s}"`: right-justify in twelve characters. -/
def padTo12Right (s : List Char) : List Char :=
  if s.length < 12 then List.replicate (12 - s.length) ' ' ++ s else s

/-- The fixed column layout of a kept atom line (app.py line 108). -/
def formatAtomLine (e x y z : List Char) : List Char :=
  padTo2Left e ++ ' ' :: ' ' :: padTo12Right x ++ ' ' :: ' ' :: padTo12Right y
    ++ ' ' :: ' ' :: padTo12Right z

/-- Per-line filter of the selected block (app.py lines 98–110): strip,
drop empty lines and lines starting with a dash, require at least four
whitespace-separated fields whose second, third and fourth fields all
parse as Python floats, and reformat from the first four fields. -/
def processLine (raw : List Char) : Option (List Char) :=
  let line := pyStrip raw
  match line with
  | [] => none
  | c :: _ =>
    if c == '-' then none
    else
      match pySplitWs line with
      | e :: x :: y :: z :: _ =>
        if canPyFloat x && canPyFloat y && canPyFloat z then
          some (formatAtomLine e x y z)
        else none
      | _ => none

/-- Geometry component of the parser on character lists: take the last
match, strip it, keep the plausible atom lines, join with newlines, with
the `"Not found"` sentinel when no block or no line survives. -/
def parseGeometryCl (content : List Char) : List Char :=
  match (geometryMatches content).reverse with
  | [] => "Not found".data
  | g :: _ =>
    let kept := (splitLines (pyStrip g)).filterMap processLine
    if kept.isEmpty then "Not found".data else joinNl kept

/-- Geometry component of the parser (app.py lines 89–113). -/
def parseGeometry (content : String) : String :=
  String.mk (parseGeometryCl content.data)

/-! ## The output parser as a whole (app.py lines 74–117)

The parser reads the output file inside a `try` block that catches every
exception; the only effectful step is the read itself, modelled by an
`Except String String` argument (`Except.error e` is a raised exception
whose `str(e)` is `e`).  On an exception the parser degrades to
`"Error: <message>"` strings instead of propagating. -/

/-- `parse_orca_output` (app.py lines 74–117) as a total function of the
read outcome, returning the `(energy, geometry, raw)` triple. -/
def parse_orca_output (readResult : Except String String) : String × String × String :=
  match readResult with
  | Except.error e => ("Error: " ++ e, "Error: " ++ e, e)
  | Except.ok content => (parseEnergy content, parseGeometry content, content)

/-! ## Concrete report texts

Four small report fragments used to settle the geometry claims; the
expected parses were cross-checked against the behaviour of the source
pattern. -/

/-- Two complete Cartesian sections separated only by a single blank
line.  The lazy group of the first match does not stop at the blank line
(the lookahead needs a dash rule or two consecutive newlines), so the
first match swallows the second header and the scan finds no second
match. -/
def twoSectionsBlankSep : String :=
  "CARTESIAN COORDINATES (ANGSTROEM)\n---------------------------------\nO 0.111111 0.222222 0.333333\nH 0.444444 0.555555 0.666666\n\nCARTESIAN COORDINATES (ANGSTROEM)\n---------------------------------\nO 9.111111 9.222222 9.333333\nH 9.444444 9.555555 9.666666\n\n----------------\n"

/-- Two complete Cartesian sections, each terminated by a dash rule, as
in real ORCA reports where a `CARTESIAN COORDINATES (A.U.)` block
follows; here both sections yield matches and the last is selected. -/
def twoSectionsRuleSep : String :=
  "CARTESIAN COORDINATES (ANGSTROEM)\n---------------------------------\nO 0.111111 0.222222 0.333333\nH 0.444444 0.555555 0.666666\n-----------------------------\nCARTESIAN COORDINATES (ANGSTROEM)\n---------------------------------\nO 9.111111 9.222222 9.333333\nH 9.444444 9.555555 9.666666\n-----------------------------\n"

/-- A single block whose two candidate lines both violate the claimed
filter: a five-field line whose last field is not numeric, and a line
with an infinite (non-finite) coordinate. -/
def blockLastFieldStray : String :=
  "CARTESIAN COORDINATES (ANGSTROEM)\n---------------------------------\nC 1.0 2.0 3.0 stray\nN inf 2.0 3.0\n---------------\n"

/-- A single block mixing a valid line, a two-field line, a short stray
separator, a blank line, a five-field line and an `inf` line. -/
def blockMixedLines : String :=
  "CARTESIAN COORDINATES (ANGSTROEM)\n---------------------------------\n  O   0.5   -0.25  1e-3\nXX 12\n--\n\nC 1.0 2.0 3.0 stray\nN inf 2.0 3.0\n-------\n"


/-! ## Input builder (app.py lines 24–32)

A pure f-string rendering of the calculation request; the geometry text
is inserted verbatim between the `* xyz 0 1` opener and the closing
`*`. -/

/-- `generate_orca_input` (app.py lines 24–32). -/
def generate_orca_input (geometry : String) (method : String := "B3LYP")
    (basis : String := "def2-SVP") (calculation_type : String := "Opt") : String :=
  "! " ++ method ++ " " ++ basis ++ " " ++ calculation_type ++ "\n\n* xyz 0 1\n"
    ++ geometry ++ "\n*\n"

/-! ## Process runner (app.py lines 34–72)

The runner writes the input file, launches the engine through the shell,
and classifies the outcome.  Everything the environment decides during
one run is collected in an `OrcaWorld`; the runner itself is then a pure
function of that record.  The `try` block of the source starts at the
`subprocess.run` call — the input-file write happens before it — so a
write failure is an uncaught exception, modelled by `Except.error`. -/

/-- Outcome of the `subprocess.run` call (app.py lines 48–51). -/
inductive ProcOutcome where
  | timeoutExpired
  | raised (msg : String)
  | completed (returncode : Int)
deriving DecidableEq

/-- What the environment does during one `run_orca_calculation` call. -/
structure OrcaWorld where
  /-- `str(e)` of an exception raised while writing the input file, if any. -/
  writeError : Option String
  /-- outcome of launching the engine -/
  procOutcome : ProcOutcome
  /-- whether the designated output file exists after the process returns -/
  outputExists : Bool
  /-- `str(e)` of an exception raised while reading the output file, if any -/
  readError : Option String
  /-- text of the output file when it exists and is readable -/
  outputContent : String
  /-- listing of the working directory after the process returns -/
  filesInDir : List String
deriving DecidableEq

/-- How one subprocess invocation is shaped (the keyword arguments of
`subprocess.run` at app.py lines 47–51). -/
structure SubprocessCall where
  command : String
  shell : Bool
  cwd : String
  timeout : Nat
deriving DecidableEq

/-- The wall-clock timeout passed to `subprocess.run` (app.py line 51). -/
def orcaTimeoutSeconds : Nat := 300

/-- The engine invocation of app.py lines 47–51: a textual shell command
with `>&` redirection, run with `shell=True` in the working directory
under the fixed timeout. -/
def orcaCall (input_file output_file temp_dir : String) : SubprocessCall :=
  { command := "orca " ++ input_file ++ " >& " ++ output_file
    shell := true
    cwd := temp_dir
    timeout := orcaTimeoutSeconds }

/-- The success-marker literal scanned for in the output (app.py line 65). -/
def successMarker : String := "ORCA TERMINATED NORMALLY"

/-- Python `repr` of a list of strings, as interpolated by the f-string
at app.py line 57 (strings without embedded quotes). -/
def pyListRepr (files : List String) : String :=
  "[" ++ String.intercalate ", "
      (files.map (fun s => String.mk (Char.ofNat 39 :: s.data ++ [Char.ofNat 39]))) ++ "]"

/-- Diagnostic of the missing-output-file failure (app.py lines 56–57). -/
def missingOutputMsg (rc : Int) (files : List String) : String :=
  "ORCA did not create output file.\nReturn code: " ++ toString rc
    ++ "\nFiles in temp directory: " ++ pyListRepr files ++ "\n"

/-- Diagnostic of the timeout failure (app.py line 70). -/
def timeoutMsg : String := "Calculation timed out after 5 minutes"

/-- Diagnostic of the missing-success-marker failure (app.py line 66). -/
def abnormalMsg : String := "ORCA did not terminate normally. Check output file for errors."

/-- `run_orca_calculation` (app.py lines 34–72).  The result mirrors the
source's `(success, output_file, message)` triple; `Except.error`
is an exception escaping the function (only the input-file write at
lines 40–41 is outside the `try`).  The process launch executes
`orcaCall input_file output_file temp_dir`, whose outcome the world
reports in `procOutcome`. -/
def run_orca_calculation (input_content : String) (temp_dir : String)
    (w : OrcaWorld) : Except String (Bool × String × String) :=
  let _input_file := temp_dir ++ "/calculation.inp"
  let output_file := temp_dir ++ "/calculation.out"
  let _ := input_content
  match w.writeError with
  | some e => Except.error e
  | none =>
    match w.procOutcome with
    | ProcOutcome.timeoutExpired => Except.ok (false, output_file, timeoutMsg)
    | ProcOutcome.raised e => Except.ok (false, output_file, e)
    | ProcOutcome.completed rc =>
      if w.outputExists = false then
        Except.ok (false, output_file, missingOutputMsg rc w.filesInDir)
      else
        match w.readError with
        | some e => Except.ok (false, output_file, e)
        | none =>
          if hasSub w.outputContent.data successMarker.data then
            Except.ok (true, output_file, w.outputContent)
          else
            Except.ok (false, output_file, abnormalMsg)

/-! ## Model validation

Concrete evaluations of the embedded parser, each cross-checked
against the behaviour of the source's patterns and of CPython
`float`. -/

/-! Sanity checks of the float grammar against CPython behaviour. -/

example : canPyFloat ("inf".data) = true := by decide
example : canPyFloat ("nan".data) = true := by decide
example : canPyFloat ("-0.25".data) = true := by decide
example : canPyFloat ("1e-3".data) = true := by decide
example : canPyFloat ("stray".data) = false := by decide
example : canPyFloat ("1_0".data) = true := by decide
example : canPyFloat ("1_".data) = false := by decide
example : canPyFloat ("_1".data) = false := by decide
example : canPyFloat ("1.".data) = true := by decide
example : canPyFloat (".5".data) = true := by decide
example : canPyFloat (".".data) = false := by decide
example : canPyFloat ("1.e5".data) = true := by decide
example : canPyFloat ("1__2".data) = false := by decide
example : canPyFloat ("Infinity".data) = true := by decide
example : canPyFloat ("1_0.5_5e1_0".data) = true := by decide
example : canPyFloat ("1_.5".data) = false := by decide

/-! Sanity checks of the numeric group against CPython `re` behaviour. -/

example : parseEnergy "FINAL SINGLE POINT ENERGY  12." = "12" := by decide
example : parseEnergy "FINAL SINGLE POINT ENERGY  .5" = ".5" := by decide
example : parseEnergy "FINAL SINGLE POINT ENERGY  +5." = "+5" := by decide
example : parseEnergy "FINAL SINGLE POINT ENERGY  7e5" = "7e5" := by decide
example : parseEnergy "FINAL SINGLE POINT ENERGY  1e+" = "1" := by decide
example : parseEnergy "FINAL SINGLE POINT ENERGY  12.5e-3" = "12.5e-3" := by decide
example : parseEnergy "FINAL SINGLE POINT ENERGY  123" = "123" := by decide
example : parseEnergy "FINAL SINGLE POINT ENERGY  -.5" = "-.5" := by decide
example : parseEnergy "FINAL SINGLE POINT ENERGY  1e+2x" = "1e+2" := by decide
example : parseEnergy "FINAL SINGLE POINT ENERGY  12.e5" = "12" := by decide
example : parseEnergy "FINAL SINGLE POINT ENERGY  0..5" = "0" := by decide
example : parseEnergy "FINAL SINGLE POINT ENERGY  1.e5" = "1" := by decide
example : parseEnergy "FINAL SINGLE POINT ENERGY  inf" = "Not found" := by decide
example : parseEnergy "FINAL SINGLE POINT ENERGY-76.1" = "Not found" := by decide

example : parseGeometry twoSectionsBlankSep =
    "O       0.111111      0.222222      0.333333\nH       0.444444      0.555555      0.666666" := by
  decide

example : parseGeometry twoSectionsRuleSep =
    "O       9.111111      9.222222      9.333333\nH       9.444444      9.555555      9.666666" := by
  decide

example : parseGeometry blockLastFieldStray =
    "C            1.0           2.0           3.0\nN            inf           2.0           3.0" := by
  decide

example : parseGeometry blockMixedLines =
    "O            0.5         -0.25          1e-3\nC            1.0           2.0           3.0\nN            inf           2.0           3.0" := by
  decide

example : parseGeometry "no coordinates here" = "Not found" := by decide
example : parseEnergy "FINAL SINGLE POINT ENERGY  -76.123456" = "-76.123456" := by decide
example : parseEnergy "nothing here" = "Not found" := by decide

/-! ## Helper lemmas -/

/-- Appending strings concatenates their character data. -/
theorem strData_append (a b : String) : (a ++ b).data = a.data ++ b.data := rfl

/-- A pattern is an initial segment of itself followed by anything. -/
theorem startsWithCl_self_append (p c : List Char) : startsWithCl p (p ++ c) = true := by
  induction p with
  | nil => rfl
  | cons x xs ih => simp [startsWithCl, ih]

/-- A pattern that starts the haystack occurs in the haystack. -/
theorem hasSub_of_startsWith {s p : List Char} (h : startsWithCl p s = true) :
    hasSub s p = true := by
  cases s with
  | nil => simpa [hasSub] using h
  | cons c t => simp [hasSub, h]

/-- Occurrence is stable under prepending text. -/
theorem hasSub_append_left (a : List Char) {t p : List Char} (h : hasSub t p = true) :
    hasSub (a ++ t) p = true := by
  induction a with
  | nil => simpa using h
  | cons x a' ih =>
    simp only [List.cons_append, hasSub, Bool.or_eq_true]
    exact Or.inr ih

/-- A pattern occurs in any text of the shape `before ++ pattern ++ after`. -/
theorem hasSub_sandwich (a p c : List Char) : hasSub (a ++ (p ++ c)) p = true :=
  hasSub_append_left a (hasSub_of_startsWith (startsWithCl_self_append p c))

/-- A successful prefix strip certifies the prefix. -/
theorem stripLeadCl_some_startsWith :
    ∀ {p s t : List Char}, stripLeadCl p s = some t → startsWithCl p s = true := by
  intro p
  induction p with
  | nil => intro s t _; rfl
  | cons x xs ih =>
    intro s t h
    cases s with
    | nil => simp [stripLeadCl] at h
    | cons c cs =>
      by_cases hx : (x == c) = true
      · simp only [stripLeadCl, hx, if_true] at h
        simp [startsWithCl, hx, ih h]
      · simp [stripLeadCl, hx] at h

/-- Without the energy label somewhere in the input, no attempt of the
energy pattern can succeed anywhere. -/
theorem searchEnergy_eq_none {content : List Char}
    (h : hasSub content energyLabel.data = false) : searchEnergy content = none := by
  induction content with
  | nil => rfl
  | cons c cs ih =>
    simp only [hasSub, Bool.or_eq_false_iff] at h
    obtain ⟨h1, h2⟩ := h
    have hAttempt : matchEnergyAt (c :: cs) = none := by
      unfold matchEnergyAt
      cases hstrip : stripLeadCl energyLabel.data (c :: cs) with
      | none => rfl
      | some t =>
        exact absurd (stripLeadCl_some_startsWith hstrip) (by simp [h1])
    simp [searchEnergy, hAttempt, ih h2]

/-- Splitting text of the shape `line ++ '\n' ++ rest` peels off the
newline-free `line`. -/
theorem splitLines_line_append {l : List Char} (hl : '\n' ∉ l) (rest : List Char) :
    splitLines (l ++ '\n' :: rest) = l :: splitLines rest := by
  induction l with
  | nil => simp [splitLines]
  | cons c l' ih =>
    have hc : c ≠ '\n' := fun h => hl (h ▸ List.mem_cons_self c l')
    have hl' : '\n' ∉ l' := fun h => hl (List.mem_cons_of_mem c h)
    have ihh := ih hl'
    simp only [List.cons_append, splitLines, if_neg hc]
    rw [show l'.append ('\n' :: rest) = l' ++ '\n' :: rest from rfl, ihh]

/-- Splitting `joinNl atoms ++ '\n' ++ rest` recovers the atom lines. -/
theorem splitLines_joinNl_append :
    ∀ (atoms : List (List Char)), atoms ≠ [] → (∀ a ∈ atoms, '\n' ∉ a) →
      ∀ rest, splitLines (joinNl atoms ++ '\n' :: rest) = atoms ++ splitLines rest := by
  intro atoms
  induction atoms with
  | nil => intro h; exact absurd rfl h
  | cons a as ih =>
    intro _ hmem rest
    cases as with
    | nil =>
      simpa [joinNl] using splitLines_line_append (hmem a (List.mem_cons_self a [])) rest
    | cons a2 as' =>
      have ha : '\n' ∉ a := hmem a (List.mem_cons_self a _)
      have hmem' : ∀ x ∈ a2 :: as', '\n' ∉ x := fun x hx => hmem x (List.mem_cons_of_mem a hx)
      calc splitLines (joinNl (a :: a2 :: as') ++ '\n' :: rest)
          = splitLines (a ++ '\n' :: (joinNl (a2 :: as') ++ '\n' :: rest)) := by
            simp [joinNl]
        _ = a :: splitLines (joinNl (a2 :: as') ++ '\n' :: rest) :=
            splitLines_line_append ha _
        _ = (a :: a2 :: as') ++ splitLines rest := by
            rw [ih (by simp) hmem' rest]; simp

/-- Line content of the shape `fixed ++ anything` cannot equal a string
the fixed part does not start. -/
theorem append_ne_of_not_startsWith {p x sd : List Char}
    (h : startsWithCl p sd = false) : p ++ x ≠ sd := by
  intro he
  rw [← he, startsWithCl_self_append] at h
  exact absurd h (by simp)

/-- Peeling a single newline at the front of `splitLines`. -/
theorem splitLines_nl_cons (r : List Char) : splitLines ('\n' :: r) = [] :: splitLines r := by
  simp [splitLines]

/-! ## Claim theorems -/

/-- Claim C1 (code bug evaluation).  On a report whose two complete
Cartesian sections are separated by a single blank line, the parser
returns the atoms of the FIRST section: the lazy group of the first
regex match runs past the blank line and swallows the second header, so
the scan never sees a second section.  The claim — and the code's own
comment `look for the last CARTESIAN COORDINATES section` — require the
atoms of the last section. -/
theorem c1_blank_separated_sections_yield_first_block :
    parseGeometry twoSectionsBlankSep =
      "O       0.111111      0.222222      0.333333\nH       0.444444      0.555555      0.666666"
    ∧ hasSub (parseGeometry twoSectionsBlankSep).data ("9.111111".data) = false
    ∧ (geometryMatches twoSectionsBlankSep.data).length = 1 := by
  refine ⟨by decide, by decide, by decide⟩

/-- Claim C2: when the output file exists but its text lacks the
success-marker literal, the run is classified as failed, whatever the
exit code was and however much text the file holds. -/
theorem c2_marker_absent_is_failure (inp dir : String) (w : OrcaWorld) (rc : Int)
    (hw : w.writeError = none) (hp : w.procOutcome = ProcOutcome.completed rc)
    (he : w.outputExists = true) (hr : w.readError = none)
    (hm : hasSub w.outputContent.data successMarker.data = false) :
    run_orca_calculation inp dir w =
      Except.ok (false, dir ++ "/calculation.out", abnormalMsg) := by
  simp [run_orca_calculation, hw, hp, he, hr, hm]

/-- Witness for C2: exit code 0 and a non-empty output file without the
marker still classify as failed. -/
theorem c2_marker_absent_is_failure_witness :
    run_orca_calculation "inp" "/tmp/job"
      { writeError := none, procOutcome := ProcOutcome.completed 0, outputExists := true,
        readError := none, outputContent := "ORCA ran partway and stopped",
        filesInDir := [] } =
      Except.ok (false, "/tmp/job/calculation.out", abnormalMsg)
    ∧ "ORCA ran partway and stopped" ≠ "" :=
  ⟨c2_marker_absent_is_failure "inp" "/tmp/job" _ 0 rfl rfl rfl rfl (by decide), by decide⟩

/-- Claim C4: the energy is the first match of the numeric pattern after
the label — evaluated on the spec's concrete text and on a text with two
labelled energies, where the first is returned — and a label-free text
yields the sentinel `"Not found"` without failing. -/
theorem c4_energy_first_match_or_sentinel :
    parseEnergy "FINAL SINGLE POINT ENERGY  -76.123456" = "-76.123456"
    ∧ parseEnergy
        "FINAL SINGLE POINT ENERGY  -76.123456\nFINAL SINGLE POINT ENERGY  -99.0"
        = "-76.123456"
    ∧ ∀ content : String, hasSub content.data energyLabel.data = false →
        parseEnergy content = "Not found" := by
  refine ⟨by decide, by decide, ?_⟩
  intro content h
  unfold parseEnergy
  rw [searchEnergy_eq_none h]

/-- Witness for C4: a concrete label-free text parses to the sentinel. -/
theorem c4_energy_first_match_or_sentinel_witness :
    hasSub ("no energy here").data energyLabel.data = false
    ∧ parseEnergy "no energy here" = "Not found" :=
  ⟨by decide, c4_energy_first_match_or_sentinel.2.2 "no energy here" (by decide)⟩

/-- Claim C8: the parser is a total function into the result triple; on
a read exception both the energy and geometry components carry the
`Error: <message>` string and the exception text is returned in place of
the raw output. -/
theorem c8_parser_never_raises :
    (∀ e : String, parse_orca_output (Except.error e) = ("Error: " ++ e, "Error: " ++ e, e))
    ∧ ∀ content : String, parse_orca_output (Except.ok content)
        = (parseEnergy content, parseGeometry content, content) :=
  ⟨fun _ => rfl, fun _ => rfl⟩

/-- Claim C10: the input-file write happens before the `try` block, so a
write exception escapes `run_orca_calculation` instead of being turned
into a classified failure triple. -/
theorem c10_write_failure_propagates (inp dir : String) (w : OrcaWorld) (e : String)
    (hw : w.writeError = some e) :
    run_orca_calculation inp dir w = Except.error e := by
  simp [run_orca_calculation, hw]

/-- Witness for C10: a concrete failing write propagates its message. -/
theorem c10_write_failure_propagates_witness :
    run_orca_calculation "inp" "/tmp/job"
      { writeError := some "Permission denied", procOutcome := ProcOutcome.completed 0,
        outputExists := false, readError := none, outputContent := "",
        filesInDir := [] } = Except.error "Permission denied" :=
  c10_write_failure_propagates "inp" "/tmp/job" _ "Permission denied" rfl

/-- Claim C3 (counterexample).  A block whose only candidate lines are
`C 1.0 2.0 3.0 stray` (five fields, last field non-numeric) and
`N inf 2.0 3.0` (an infinite coordinate) should, per the claim, keep no
line and yield `"Not found"`; the code keeps and reformats both lines,
because it checks fields two to four — not the last three fields — and
Python `float` accepts `inf`. -/
theorem c3_counterexample_filter_not_on_last_fields :
    parseGeometry blockLastFieldStray =
      "C            1.0           2.0           3.0\nN            inf           2.0           3.0"
    ∧ parseGeometry blockLastFieldStray ≠ "Not found" := by
  refine ⟨by decide, by decide⟩

/-- Claim C3 (amended): within the selected block the parser keeps
exactly the stripped lines that are non-empty, do not start with a dash,
and tokenize into at least four fields whose second, third and fourth
fields all parse as Python floats (infinities and NaN included); every
other line is silently dropped, and kept lines are reformatted from
their first four fields with the element left-justified in 2 characters
and the coordinates right-justified in 12, separated by two spaces.
Evaluated on a block mixing a valid line, a two-field line, a short
stray separator, a blank line, a five-field line and an `inf` line;
furthermore any line with fewer than four fields is always dropped. -/
theorem c3_amended_line_filter_and_layout :
    parseGeometry blockMixedLines =
      "O            0.5         -0.25          1e-3\nC            1.0           2.0           3.0\nN            inf           2.0           3.0"
    ∧ ∀ raw : List Char, (pySplitWs (pyStrip raw)).length < 4 → processLine raw = none := by
  refine ⟨by decide, ?_⟩
  intro raw hlen
  unfold processLine
  cases hline : pyStrip raw with
  | nil => rfl
  | cons c restl =>
    rw [hline] at hlen
    by_cases hc : (c == '-') = true
    · simp [hc]
    · simp only [hc, Bool.false_eq_true, if_false]
      cases hparts : pySplitWs (c :: restl) with
      | nil => simp [hparts]
      | cons e ps =>
        cases ps with
        | nil => simp [hparts]
        | cons x ps2 =>
          cases ps2 with
          | nil => simp [hparts]
          | cons y ps3 =>
            cases ps3 with
            | nil => simp [hparts]
            | cons z ps4 =>
              rw [hparts] at hlen
              simp at hlen
              omega

/-- Witness for C3 (amended): the concrete two-field line is dropped. -/
theorem c3_amended_line_filter_and_layout_witness :
    (pySplitWs (pyStrip ("XX 12".data))).length < 4
    ∧ processLine ("XX 12".data) = none :=
  ⟨by decide, c3_amended_line_filter_and_layout.2 ("XX 12".data) (by decide)⟩

/-- Claim C5: the generated input document is exactly the directive
line, a blank line, the `* xyz 0 1` opener, the atom lines verbatim and
in order, and a closing `*` (the final newline of the document makes the
line split end with one empty piece).  The builder is a pure function,
so the construction has no side effects. -/
theorem c5_input_document_shape (atoms : List (List Char)) (m b t : String)
    (hne : atoms ≠ []) (hat : ∀ a ∈ atoms, '\n' ∉ a)
    (hm : '\n' ∉ m.data) (hb : '\n' ∉ b.data) (ht : '\n' ∉ t.data) :
    splitLines (generate_orca_input (String.mk (joinNl atoms)) m b t).data
      = ("! " ++ m ++ " " ++ b ++ " " ++ t).data :: [] :: ("* xyz 0 1" : String).data
          :: (atoms ++ [['*'], []]) := by
  have hL1 : '\n' ∉ ("! " ++ m ++ " " ++ b ++ " " ++ t).data := by
    simp only [strData_append, List.mem_append]
    simp [hm, hb, ht, show '\n' ∉ ("! " : String).data by decide,
      show '\n' ∉ (" " : String).data by decide]
  have hOP : '\n' ∉ ("* xyz 0 1" : String).data := by decide
  have h1 : ("\n\n* xyz 0 1\n" : String).data
      = '\n' :: '\n' :: (("* xyz 0 1" : String).data ++ ['\n']) := rfl
  have h2 : ("\n*\n" : String).data = '\n' :: '*' :: '\n' :: [] := rfl
  have hdoc : (generate_orca_input (String.mk (joinNl atoms)) m b t).data
      = ("! " ++ m ++ " " ++ b ++ " " ++ t).data
          ++ '\n' :: ('\n' :: (("* xyz 0 1" : String).data
          ++ '\n' :: (joinNl atoms ++ '\n' :: '*' :: '\n' :: []))) := by
    simp [generate_orca_input, strData_append, h1, h2, List.append_assoc,
      show (String.mk (joinNl atoms)).data = joinNl atoms from rfl]
  rw [hdoc, splitLines_line_append hL1, splitLines_nl_cons,
    splitLines_line_append hOP, splitLines_joinNl_append atoms hne hat,
    show splitLines ('*' :: '\n' :: []) = [['*'], []] from by decide]

/-- Witness for C5: the default water molecule request. -/
theorem c5_input_document_shape_witness :
    splitLines (generate_orca_input
        (String.mk (joinNl ["O 0.0 0.0 0.0".data, "H 0.96 0.0 0.0".data,
          "H -0.24 0.93 0.0".data])) "B3LYP" "def2-SVP" "Opt").data
      = ("! " ++ "B3LYP" ++ " " ++ "def2-SVP" ++ " " ++ "Opt").data :: []
          :: ("* xyz 0 1" : String).data
          :: (["O 0.0 0.0 0.0".data, "H 0.96 0.0 0.0".data, "H -0.24 0.93 0.0".data]
              ++ [['*'], []]) :=
  c5_input_document_shape _ "B3LYP" "def2-SVP" "Opt" (by decide) (by decide)
    (by decide) (by decide) (by decide)

/-- Claim C6: when the process returns but the output file is missing,
the run fails with a diagnostic that reports the exit code and the
working-directory listing and that differs from the diagnostics of the
timeout and missing-marker failure modes. -/
theorem c6_missing_output_file_diagnostic (inp dir : String) (w : OrcaWorld) (rc : Int)
    (hw : w.writeError = none) (hp : w.procOutcome = ProcOutcome.completed rc)
    (he : w.outputExists = false) :
    run_orca_calculation inp dir w
      = Except.ok (false, dir ++ "/calculation.out", missingOutputMsg rc w.filesInDir)
    ∧ hasSub (missingOutputMsg rc w.filesInDir).data (toString rc).data = true
    ∧ hasSub (missingOutputMsg rc w.filesInDir).data (pyListRepr w.filesInDir).data = true
    ∧ missingOutputMsg rc w.filesInDir ≠ timeoutMsg
    ∧ missingOutputMsg rc w.filesInDir ≠ abnormalMsg := by
  have hdata : ∀ (r : Int) (fs : List String), (missingOutputMsg r fs).data
      = ("ORCA did not create output file.\nReturn code: " : String).data
        ++ ((toString r).data ++ (("\nFiles in temp directory: " : String).data
        ++ ((pyListRepr fs).data ++ ("\n" : String).data))) := by
    intro r fs
    simp [missingOutputMsg, strData_append, List.append_assoc]
  refine ⟨by simp [run_orca_calculation, hw, hp, he], ?_, ?_, ?_, ?_⟩
  · rw [hdata]
    exact hasSub_append_left _
      (hasSub_of_startsWith (startsWithCl_self_append _ _))
  · rw [hdata]
    exact hasSub_append_left _ (hasSub_append_left _ (hasSub_append_left _
      (hasSub_of_startsWith (startsWithCl_self_append _ _))))
  · intro hcontr
    have hd := congrArg String.data hcontr
    rw [hdata] at hd
    exact append_ne_of_not_startsWith (by decide) hd
  · intro hcontr
    have hd := congrArg String.data hcontr
    rw [hdata] at hd
    exact append_ne_of_not_startsWith (by decide) hd

/-- Witness for C6: a concrete run with exit code 7 and one file left in
the working directory. -/
theorem c6_missing_output_file_diagnostic_witness :
    run_orca_calculation "inp" "/tmp/job"
      { writeError := none, procOutcome := ProcOutcome.completed 7, outputExists := false,
        readError := none, outputContent := "", filesInDir := ["calculation.inp"] }
      = Except.ok (false, "/tmp/job/calculation.out", missingOutputMsg 7 ["calculation.inp"])
    ∧ hasSub (missingOutputMsg 7 ["calculation.inp"]).data (toString (7 : Int)).data = true
    ∧ hasSub (missingOutputMsg 7 ["calculation.inp"]).data
        (pyListRepr ["calculation.inp"]).data = true
    ∧ missingOutputMsg 7 ["calculation.inp"] ≠ timeoutMsg
    ∧ missingOutputMsg 7 ["calculation.inp"] ≠ abnormalMsg :=
  c6_missing_output_file_diagnostic "inp" "/tmp/job" _ 7 rfl rfl rfl

/-- Claim C7: a timed-out child process yields a failure whose
diagnostic is the fixed string `Calculation timed out after 5 minutes`
(so no output-file content is returned or scanned for the marker on
this path), the diagnostic contains `timed out`, and the timeout passed
to the process launch is 300 seconds. -/
theorem c7_timeout_is_failure (inp dir : String) (w : OrcaWorld)
    (hw : w.writeError = none) (hp : w.procOutcome = ProcOutcome.timeoutExpired) :
    run_orca_calculation inp dir w = Except.ok (false, dir ++ "/calculation.out", timeoutMsg)
    ∧ hasSub timeoutMsg.data ("timed out".data) = true
    ∧ (orcaCall (dir ++ "/calculation.inp") (dir ++ "/calculation.out") dir).timeout = 300 :=
  ⟨by simp [run_orca_calculation, hw, hp], by decide, rfl⟩

/-- Witness for C7: a concrete timed-out run whose world even holds a
partially written output file; the file's text does not reach the
result. -/
theorem c7_timeout_is_failure_witness :
    run_orca_calculation "inp" "/tmp/job"
      { writeError := none, procOutcome := ProcOutcome.timeoutExpired, outputExists := true,
        readError := none, outputContent := "partial text without marker",
        filesInDir := ["calculation.inp", "calculation.out"] }
      = Except.ok (false, "/tmp/job/calculation.out", timeoutMsg)
    ∧ hasSub timeoutMsg.data ("timed out".data) = true
    ∧ (orcaCall ("/tmp/job" ++ "/calculation.inp") ("/tmp/job" ++ "/calculation.out")
        "/tmp/job").timeout = 300 :=
  c7_timeout_is_failure "inp" "/tmp/job" _ rfl rfl

/-- Claim C9 (counterexample).  The engine is launched through the shell
with a textual redirection operator: at the concrete working directory
`/tmp/job` the spawned call has `shell = true` and its command string
contains `>&` — the claim asserts no shell-evaluated command string with
a redirection operator is ever used. -/
theorem c9_counterexample_shell_redirection :
    (orcaCall "/tmp/job/calculation.inp" "/tmp/job/calculation.out" "/tmp/job").shell = true
    ∧ hasSub (orcaCall "/tmp/job/calculation.inp" "/tmp/job/calculation.out"
        "/tmp/job").command.data (">&".data) = true
    ∧ (orcaCall "/tmp/job/calculation.inp" "/tmp/job/calculation.out" "/tmp/job").command
        = "orca /tmp/job/calculation.inp >& /tmp/job/calculation.out" := by
  refine ⟨rfl, by decide, by decide⟩

/-- Claim C9 (amended): for every input-file and output-file path the
engine is launched with `shell = true` on the textual command
`orca <input> >& <output>`, whose `>&` operator makes the shell merge
the child's stdout and stderr into the output file. -/
theorem c9_amended_shell_command (input_file output_file temp_dir : String) :
    (orcaCall input_file output_file temp_dir).shell = true
    ∧ (orcaCall input_file output_file temp_dir).command
        = "orca " ++ input_file ++ " >& " ++ output_file
    ∧ hasSub (orcaCall input_file output_file temp_dir).command.data (">&".data) = true := by
  refine ⟨rfl, rfl, ?_⟩
  have hcmd : (orcaCall input_file output_file temp_dir).command.data
      = ("orca " : String).data ++ (input_file.data
        ++ ([' '] ++ ((">&" : String).data ++ ([' '] ++ output_file.data)))) := by
    simp [orcaCall, strData_append, List.append_assoc,
      show (" >& " : String).data = [' '] ++ ((">&" : String).data ++ [' ']) from rfl]
  rw [hcmd]
  exact hasSub_append_left _ (hasSub_append_left _ (hasSub_append_left _
    (hasSub_of_startsWith (startsWithCl_self_append _ _))))
